import Mathlib

/-!
Shallow embedding of the `mini-code-Analyzer` repository.

`metrics.py` (language detection, per-file line scanner, directory walker)
and `principles.py` (SOLID evaluator, functional-style evaluator) are
translated into executable Lean definitions.  File contents are modelled as
the decoded text a successful `open(...)` yields (`Option String`, `none`
meaning the open itself failed); Python's regular expressions are modelled
by hand-rolled matchers that implement the search/`findall` semantics of the
concrete patterns used by the source (word boundaries, greedy and lazy
quantifiers, backtracking where it can matter for those patterns).  Python
character classes `\w`/`\s` are modelled by their ASCII fragments, which
cover all keywords and all inputs considered here.  Python floats are
modelled as exact rationals; the final `round(score, 3)` float formatting in
`principles.py` is not modelled (scores are kept exact).
-/

-- ===== Character classes =====

/-- Python regex `\w` (ASCII fragment): letters, digits, underscore. -/
def isWordChar (c : Char) : Bool := c.isAlphanum || c == '_'

/-- Python regex `\s` / `str.strip` whitespace (ASCII fragment):
space, tab, newline, carriage return, vertical tab, form feed. -/
def isPySpace (c : Char) : Bool :=
  c == ' ' || c == '\t' || c == '\n' || c == '\r' || c == '\u000B' || c == '\u000C'

/-- Case-insensitive character comparison (ASCII, as under `re.IGNORECASE`). -/
def lowerEq (a b : Char) : Bool := a.toLower == b.toLower

/-- The literal `kw` is a prefix of `s` (`ci` = case-insensitive). -/
def litAt (ci : Bool) : List Char → List Char → Bool
  | [], _ => true
  | _ :: _, [] => false
  | a :: as, b :: bs => (if ci then lowerEq a b else a == b) && litAt ci as bs

-- ===== Word-boundary search (`re.search(r"\b..\b", s)`) =====

/-- Python `\b`: a word boundary lies between characters `a` and `b`
(`none` = string edge, which counts as a non-word character). -/
def bdry (a b : Option Char) : Bool :=
  (a.elim false isWordChar) != (b.elim false isWordChar)

/-- `\b<kw>\b` matches at the current position of `s`, where `prev` is the
character immediately before that position. -/
def wbHere (ci : Bool) (kw : List Char) (prev : Option Char) (s : List Char) : Bool :=
  litAt ci kw s && bdry prev s.head? &&
    bdry ((s.take kw.length).getLast?) ((s.drop kw.length).head?)

/-- `re.search(r"\b" + re.escape(kw) + r"\b", s)` (case-sensitive), as used by
`metrics.count_patterns` and by the print/log pattern of `principles.py`. -/
def wbSearchAux (kw : List Char) : Option Char → List Char → Bool
  | _, [] => false
  | prev, c :: rest => wbHere false kw prev (c :: rest) || wbSearchAux kw (some c) rest

def wbSearch (kw s : String) : Bool := wbSearchAux kw.data none s.data

/-- Case-insensitive plain substring search (no word boundaries), as in
`re.search("(interface|abstract)", line, re.IGNORECASE)`. -/
def ciSub (kw : List Char) : List Char → Bool
  | [] => litAt true kw []
  | c :: rest => litAt true kw (c :: rest) || ciSub kw rest

-- ===== metrics.count_patterns and the decision-keyword table =====

/-- `metrics.count_patterns`: one increment per keyword whose whole-word
search hits the line (at most one hit per pattern per line). -/
def count_patterns (patterns : List String) (line : String) : Nat :=
  patterns.countP (fun kw => wbSearch kw line)

/-- `metrics.analyse_file`'s `decision_keywords` table (14 entries). -/
def decision_keywords : List String :=
  ["if", "elif", "else if", "for", "while", "case", "switch",
   "catch", "except", "&&", "||", "?", "and", "or"]

-- ===== Maximal character runs =====

/-- Length of the maximal whitespace run at the head (`\s*` / `\s+`). -/
def spaceRun (t : List Char) : Nat := (t.takeWhile isPySpace).length

/-- Length of the maximal word-character run at the head (`\w*` / `\w+`). -/
def wordRun (t : List Char) : Nat := (t.takeWhile isWordChar).length

/-- Keyword at the head of `t` followed by a word boundary (all keywords used
with this helper end in a word character, so `\b` means: next character is
absent or not a word character). -/
def kwAt (kw : String) (t : List Char) : Bool :=
  litAt false kw.data t && !((t.drop kw.length).head?.elim false isWordChar)

-- ===== metrics.analyse_file: per-line declaration patterns =====

/-- `re.match(r"^\s*(class|struct)\b", line)`. -/
def classLineMatch (line : String) : Bool :=
  let t := line.data.dropWhile isPySpace
  kwAt "class" t || kwAt "struct" t

/-- `re.match(r"^\s*interface\b", line)`. -/
def interfaceLineMatch (line : String) : Bool :=
  kwAt "interface" (line.data.dropWhile isPySpace)

/-- `\(.*\)` at the head of `t`: an opening parenthesis followed by a closing
one, with no newline in between (`.` does not match `\n`). -/
def parenTail (t : List Char) : Bool :=
  match t with
  | [] => false
  | c :: rest => c == '(' && (rest.takeWhile (fun d => d != '\n')).contains ')'

/-- `\s*\w+\s*\(.*\)` at the head of `u`.  The whitespace and word runs are
forced maximal because the follow-up characters are in disjoint classes. -/
def funcCore (u : List Char) : Bool :=
  let u1 := u.drop (spaceRun u)
  let n := wordRun u1
  n != 0 &&
    (let u2 := u1.drop n
     parenTail (u2.drop (spaceRun u2)))

/-- Remainder of `t` after the literal `lit`, if `lit` is a prefix. -/
def afterLit (lit : String) (t : List Char) : Option (List Char) :=
  if litAt false lit.data t then some (t.drop lit.length) else none

/-- Remainder of `t` after `a\s+b` (the `public\s+static` style alternatives;
the inner whitespace run is forced maximal and must be non-empty). -/
def afterPair (a b : String) (t : List Char) : Option (List Char) :=
  match afterLit a t with
  | none => none
  | some u =>
    let k := spaceRun u
    if k == 0 then none else afterLit b (u.drop k)

/-- `metrics.analyse_file`'s function pattern
`^\s*(def|function|func|public\s+static|private\s+static|public|private|protected|static|final)?\s*\w+\s*\(.*\)`
under `re.match`: the optional keyword group is tried with every alternative
and also absent (the group carries no trailing `\b`). -/
def funcLineMatch (line : String) : Bool :=
  let t := line.data.dropWhile isPySpace
  funcCore t ||
    ([afterLit "def" t, afterLit "function" t, afterLit "func" t,
      afterPair "public" "static" t, afterPair "private" "static" t,
      afterLit "public" t, afterLit "private" t, afterLit "protected" t,
      afterLit "static" t, afterLit "final" t].any (fun r =>
        match r with
        | some u => funcCore u
        | none => false))

-- ===== metrics.analyse_file: style checks =====

/-- `line.strip()` (ASCII whitespace fragment). -/
def pyStrip (t : List Char) : List Char :=
  ((t.dropWhile isPySpace).reverse.dropWhile isPySpace).reverse

/-- Comment heuristic: the stripped line starts with `#`, `//`, `/*`, `*` or `--`. -/
def isCommentLine (line : String) : Bool :=
  let s := pyStrip line.data
  litAt false "#".data s || litAt false "//".data s || litAt false "/*".data s ||
    litAt false "*".data s || litAt false "--".data s

/-- `len(line.rstrip("\n")) > 79`. -/
def isLongLine (line : String) : Bool :=
  79 < (line.data.reverse.dropWhile (fun c => c == '\n')).length

/-- Python-only indentation tracking: `re.match(r"^(\s+)", line)` keys off the
line's first character.  Returns the new first-indent character seen and
whether this line triggers the mixed-indentation flag. -/
def indentUpdate (lang : String) (ic : Option Char) (line : String) : Option Char × Bool :=
  if lang == "python" then
    match line.data.head? with
    | some c =>
      if isPySpace c then
        match ic with
        | none => (some c, false)
        | some p => (some p, c != p)
      else (ic, false)
    | none => (ic, false)
  else (ic, false)

-- ===== metrics.detect_language =====

/-- Index of the last occurrence of `c` in `t`. -/
def lastIdx (c : Char) (t : List Char) : Option Nat :=
  (t.foldl (fun (st : Nat × Option Nat) d =>
    (st.1 + 1, if d == c then some st.1 else st.2)) (0, none)).2

/-- `os.path.splitext(p)[1]` (POSIX): the extension starts at the last dot,
provided that dot lies after the last path separator and some non-dot
character of the basename precedes it. -/
def splitextExt (p : String) : String :=
  let t := p.data
  let sepIdx : Int := (lastIdx '/' t).elim (-1) (fun i => (i : Int))
  let dotIdx : Int := (lastIdx '.' t).elim (-1) (fun i => (i : Int))
  if sepIdx < dotIdx then
    let mid := (t.drop (sepIdx + 1).toNat).take (dotIdx - (sepIdx + 1)).toNat
    if mid.any (fun c => c != '.') then String.mk (t.drop dotIdx.toNat) else ""
  else ""

/-- `metrics.detect_language`: lower-cased extension looked up in the table. -/
def detect_language (filename : String) : String :=
  let ext := String.mk ((splitextExt filename).data.map Char.toLower)
  if ext = ".py" then "python"
  else if ext = ".js" then "javascript"
  else if ext = ".java" then "java"
  else if ext = ".cpp" then "cpp"
  else if ext = ".c" then "c"
  else if ext = ".cs" then "csharp"
  else if ext = ".ts" then "typescript"
  else if ext = ".rb" then "ruby"
  else if ext = ".go" then "go"
  else "unknown"

-- ===== FileMetrics and the line scanner =====

/-- `metrics.FileMetrics` (the unused `additional_info` dict is omitted:
nothing in the repository ever writes or reads it). -/
structure FileMetrics where
  path : String
  num_functions : Nat
  num_classes : Nat
  num_interfaces : Nat
  cyclomatic_complexity : Nat
  complexity_category : String
  line_count : Nat
  comment_count : Nat
  long_line_count : Nat
  mixed_indent : Bool
  language : String
deriving Repr, DecidableEq

/-- The dataclass defaults of `FileMetrics`, with `language` already set from
the path as `analyse_file` does before its loop. -/
def initMetrics (path : String) : FileMetrics :=
  { path := path, num_functions := 0, num_classes := 0, num_interfaces := 0,
    cyclomatic_complexity := 1, complexity_category := "Simple",
    line_count := 0, comment_count := 0, long_line_count := 0,
    mixed_indent := false, language := detect_language path }

/-- One iteration of `analyse_file`'s line loop.  State: current metrics,
first indentation character seen (`indent_char`), running complexity. -/
def scanStep (st : FileMetrics × Option Char × Nat) (line : String) :
    FileMetrics × Option Char × Nat :=
  let m := st.1
  let iu := indentUpdate m.language st.2.1 line
  ({ m with
      line_count := m.line_count + 1,
      comment_count := m.comment_count + (if isCommentLine line then 1 else 0),
      mixed_indent := m.mixed_indent || iu.2,
      long_line_count := m.long_line_count + (if isLongLine line then 1 else 0),
      num_functions := m.num_functions + (if funcLineMatch line then 1 else 0),
      num_classes := m.num_classes + (if classLineMatch line then 1 else 0),
      num_interfaces := m.num_interfaces + (if interfaceLineMatch line then 1 else 0) },
   iu.1, st.2.2 + count_patterns decision_keywords line)

/-- `analyse_file`'s complexity-to-category mapping. -/
def categoryOf (c : Nat) : String :=
  if c ≤ 10 then "Simple"
  else if c ≤ 20 then "Moderate"
  else if c ≤ 50 then "Complex"
  else "Very High"

/-- The body of `metrics.analyse_file` once the file's lines are in hand. -/
def analyseLines (path : String) (lines : List String) : FileMetrics :=
  let r := lines.foldl scanStep (initMetrics path, none, 1)
  { r.1 with cyclomatic_complexity := r.2.2, complexity_category := categoryOf r.2.2 }

/-- `f.readlines()` on decoded text: split after each newline, keeping it;
a final piece without a newline is kept if non-empty. -/
def readlinesAux (acc : List Char) : List Char → List (List Char)
  | [] => if acc.isEmpty then [] else [acc.reverse]
  | c :: rest =>
    if c == '\n' then (c :: acc).reverse :: readlinesAux [] rest
    else readlinesAux (c :: acc) rest

def readlines (text : String) : List String := (readlinesAux [] text.data).map String.mk

/-- `metrics.analyse_file`: `none` exactly when the file cannot be opened
(the `except: return None` path); a successfully opened file always yields
metrics, since decoding with `errors="ignore"` cannot fail. -/
def analyse_file (path : String) (content : Option String) : Option FileMetrics :=
  content.map (fun text => analyseLines path (readlines text))

/-- Derived ratio `FileMetrics.comment_ratio` (exact rational). -/
def comment_ratio (m : FileMetrics) : ℚ :=
  if m.line_count = 0 then 0 else (m.comment_count : ℚ) / (m.line_count : ℚ)

/-- Derived ratio `FileMetrics.long_line_ratio` (exact rational). -/
def long_line_ratio (m : FileMetrics) : ℚ :=
  if m.line_count = 0 then 0 else (m.long_line_count : ℚ) / (m.line_count : ℚ)

-- ===== metrics.analyse_directory =====

/-- A directory entry as the walker sees it: a file name and the text a
successful open would yield (`none` = unreadable). -/
structure Entry where
  name : String
  content : Option String
deriving Repr, DecidableEq

/-- `metrics.analyse_directory`, with the `os.walk` traversal abstracted to
the resulting file sequence: apply the extension filter (explicit suffix
list, else known-language check), scan, and keep successful scans in order. -/
def analyse_directory (ents : List Entry) (exts : Option (List String)) : List FileMetrics :=
  match ents with
  | [] => []
  | e :: rest =>
    let keep : Bool :=
      match exts with
      | some xs => xs.any (fun x => x.data.isSuffixOf e.name.data)
      | none => detect_language e.name != "unknown"
    if keep then
      match analyse_file e.name e.content with
      | some m => m :: analyse_directory rest exts
      | none => analyse_directory rest exts
    else analyse_directory rest exts

-- ===== Scanning counters (`re.findall` semantics) =====

/-- Count non-overlapping matches left to right, as `re.findall` does:
`f prev t` returns the extent of a match at the head of `t` (with `prev` the
character before it, for `\b` checks); on a match, scanning resumes after it,
otherwise one character further.  Fuel-driven (structural) so that the
definition reduces; `fuel = t.length` always suffices since every step
consumes at least one character. -/
def countScanFuel (f : Option Char → List Char → Option Nat) :
    Nat → Option Char → List Char → Nat
  | 0, _, _ => 0
  | _ + 1, _, [] => 0
  | fuel + 1, prev, c :: rest =>
    match f prev (c :: rest) with
    | some n =>
      let adv := max n 1
      1 + countScanFuel f fuel (((c :: rest).take adv).getLast?) ((c :: rest).drop adv)
    | none => countScanFuel f fuel (some c) rest

def countScan (f : Option Char → List Char → Option Nat) (t : List Char) : Nat :=
  countScanFuel f t.length none t

/-- Like `countScan` but each match also carries a value; the values of all
matches are summed (used for methods-per-interface-block). -/
def sumScanFuel (f : List Char → Option (Nat × Nat)) :
    Nat → List Char → Nat
  | 0, _ => 0
  | _ + 1, [] => 0
  | fuel + 1, c :: rest =>
    match f (c :: rest) with
    | some (v, n) => v + sumScanFuel f fuel ((c :: rest).drop (max n 1))
    | none => sumScanFuel f fuel rest

def sumScan (f : List Char → Option (Nat × Nat)) (t : List Char) : Nat :=
  sumScanFuel f t.length t

-- ===== principles.evaluate_solid: text passes =====

/-- `lit` is a case-insensitive literal prefix of `t`. -/
def ciAt (lit : String) (t : List Char) : Bool := litAt true lit.data t

/-- Tail phase `\s+\w+` of the inheritance pattern: mandatory whitespace run,
then a mandatory word run; returns the overall match extent (`t0Len` is the
length of the text at the match start, `after` the remaining text). -/
def inheritFinish (t0Len : Nat) (after : List Char) : Option Nat :=
  let k2 := spaceRun after
  if k2 = 0 then none
  else
    let a2 := after.drop k2
    let w2 := wordRun a2
    if w2 = 0 then none else some (t0Len - (a2.drop (w2)).length)

/-- One attempted match of `class\s+\w+\s*(?:extends|:)\s+\w+` (IGNORECASE)
at the head of `t`, returning its extent.  The class-name run `\w+` is greedy
with backtracking: lengths are tried from maximal down to 1; for a shorter
name the next character is a word character, so `\s*` is forced empty and
only the `extends` alternative can apply. -/
def matchInheritAt (t : List Char) : Option Nat :=
  if ciAt "class" t then
    let u := t.drop 5
    let k := spaceRun u
    if k = 0 then none
    else
      let u2 := u.drop k
      let w := wordRun u2
      if w = 0 then none
      else
        ((List.range w).map (fun j => w - j)).findSome? (fun m =>
          let v := u2.drop m
          if m = w then
            let v2 := v.drop (spaceRun v)
            if ciAt "extends" v2 then inheritFinish t.length (v2.drop 7)
            else if v2.head? == some ':' then inheritFinish t.length (v2.drop 1)
            else none
          else if ciAt "extends" v then inheritFinish t.length (v.drop 7)
          else none)
  else none

/-- `len(inheritance_pattern.findall(text))` from `evaluate_solid`. -/
def inheritCount (text : String) : Nat :=
  countScan (fun _ t => matchInheritAt t) text.data

/-- Lazy `.*?\)\s*;` scan after an opening parenthesis: find the first `)`
preceded only by non-newline characters such that a whitespace run (which may
cross newlines) followed by `;` comes next; returns the number of characters
consumed including that `;`. -/
def lazyCloseScan : List Char → Option Nat
  | [] => none
  | c :: rest =>
    if c == '\n' then none
    else if c == ')' then
      let sp := spaceRun rest
      if (rest.drop sp).head? == some ';' then some (1 + sp + 1)
      else
        match lazyCloseScan rest with
        | some n => some (n + 1)
        | none => none
    else
      match lazyCloseScan rest with
      | some n => some (n + 1)
      | none => none

/-- One attempted match of `\b\w+\s*\(.*?\)\s*;` at the head of `t`
(the method pattern applied inside interface bodies). -/
def matchMethodAt (prev : Option Char) (t : List Char) : Option Nat :=
  match t.head? with
  | none => none
  | some c =>
    if isWordChar c && !(prev.elim false isWordChar) then
      let w := wordRun t
      let u := t.drop w
      let u2 := u.drop (spaceRun u)
      match u2.head? with
      | some p =>
        if p == '(' then
          match lazyCloseScan (u2.drop 1) with
          | some n => some (t.length - (u2.drop 1).length + n)
          | none => none
        else none
      | none => none
    else none

/-- `len(re.findall(r"\b\w+\s*\(.*?\)\s*;", body))`. -/
def methodCountIn (body : List Char) : Nat := countScan matchMethodAt body

/-- One attempted match of `interface\s+\w+\s*{([^}]*)}` at the head of `t`,
returning the method count of the captured body together with the extent.
The interface-name run and the whitespace runs are forced maximal, and the
greedy `[^}]*` necessarily stops at the first closing brace. -/
def matchIfaceBlockAt (t : List Char) : Option (Nat × Nat) :=
  if litAt false "interface".data t then
    let u := t.drop 9
    let k := spaceRun u
    if k = 0 then none
    else
      let u2 := u.drop k
      let w := wordRun u2
      if w = 0 then none
      else
        let v := u2.drop w
        let v2 := v.drop (spaceRun v)
        match v2.head? with
        | some c =>
          if c = Char.ofNat 123 then
            let body := (v2.drop 1).takeWhile (fun d => d != Char.ofNat 125)
            match (v2.drop 1).drop body.length with
            | [] => none
            | _ :: rest2 => some (methodCountIn body, t.length - rest2.length)
          else none
        | none => none
  else none

/-- Total interface-body method count accumulated by `evaluate_solid`'s
`interface_pattern` pass over one file's text. -/
def ifaceMethodCount (text : String) : Nat := sumScan matchIfaceBlockAt text.data

/-- `str.splitlines()` separators (`\r\n` is handled as one separator in
`pySplitlinesAux`). -/
def isLineSep (c : Char) : Bool :=
  c == '\n' || c == '\r' || c == '\u000B' || c == '\u000C' ||
    c == '\u001C' || c == '\u001D' || c == '\u001E' || c == '\u0085' ||
    c == '\u2028' || c == '\u2029'

/-- `text.splitlines()`: split at every line separator, dropping a final
empty piece. -/
def pySplitlinesAux : List Char → List Char → List (List Char)
  | acc, [] => if acc.isEmpty then [] else [acc.reverse]
  | acc, '\r' :: '\n' :: rest => acc.reverse :: pySplitlinesAux [] rest
  | acc, '\r' :: rest => acc.reverse :: pySplitlinesAux [] rest
  | acc, c :: rest =>
    if isLineSep c then acc.reverse :: pySplitlinesAux [] rest
    else pySplitlinesAux (c :: acc) rest

def pySplitlines (text : String) : List (List Char) := pySplitlinesAux [] text.data

/-- Split on `\n` only, as iterating an open text file does (each produced
line also keeps its trailing newline, which no matcher below inspects). -/
def splitOnNLAux (acc : List Char) : List Char → List (List Char)
  | [] => [acc.reverse]
  | c :: rest =>
    if c == '\n' then acc.reverse :: splitOnNLAux [] rest
    else splitOnNLAux (c :: acc) rest

def splitOnNL (text : String) : List (List Char) := splitOnNLAux [] text.data

/-- `re.match(r"\s*(import|using|require)\b", line)`. -/
def isImportLine (l : List Char) : Bool :=
  let t := l.dropWhile isPySpace
  kwAt "import" t || kwAt "using" t || kwAt "require" t

/-- `re.search(r"(interface|abstract)", line, re.IGNORECASE)`. -/
def hasAbstraction (l : List Char) : Bool :=
  ciSub "interface".data l || ciSub "abstract".data l

/-- Import lines also mentioning an abstraction, counted by `evaluate_solid`'s
first per-file loop over `text.splitlines()`. -/
def abstractImportCount (text : String) : Nat :=
  (pySplitlines text).countP (fun l => isImportLine l && hasAbstraction l)

/-- Import lines counted by `evaluate_solid`'s second per-file loop, which
iterates the reopened file (so lines are split on `\n` only); an unreadable
file is skipped (`except: pass`). -/
def importLineCount (content : Option String) : Nat :=
  match content with
  | none => 0
  | some text => (splitOnNL text).countP isImportLine

-- ===== principles.evaluate_solid =====

/-- An analysed file as the evaluators see it: its metrics record plus the
text that reopening `fm.path` yields (`none` = reopen fails, which the first
`evaluate_solid` loop turns into the empty string). -/
def fileTextOf (f : FileMetrics × Option String) : String := f.2.getD ""

def totalClassesOf (files : List (FileMetrics × Option String)) : Nat :=
  (files.map (fun f => f.1.num_classes)).sum

def totalFunctionsOf (files : List (FileMetrics × Option String)) : Nat :=
  (files.map (fun f => f.1.num_functions)).sum

def totalInterfacesOf (files : List (FileMetrics × Option String)) : Nat :=
  (files.map (fun f => f.1.num_interfaces)).sum

def inheritTotalOf (files : List (FileMetrics × Option String)) : Nat :=
  (files.map (fun f => inheritCount (fileTextOf f))).sum

def ifaceMethodTotalOf (files : List (FileMetrics × Option String)) : Nat :=
  (files.map (fun f => ifaceMethodCount (fileTextOf f))).sum

def abstractImportTotalOf (files : List (FileMetrics × Option String)) : Nat :=
  (files.map (fun f => abstractImportCount (fileTextOf f))).sum

def importTotalOf (files : List (FileMetrics × Option String)) : Nat :=
  (files.map (fun f => importLineCount f.2)).sum

/-- The five scores returned by `evaluate_solid` (exact rationals; the
source's `round(score, 3)` float formatting is not modelled). -/
structure SolidScores where
  single_responsibility : ℚ
  open_closed : ℚ
  interface_segregation : ℚ
  dependency_inversion : ℚ
  liskov_substitution : ℚ
deriving Repr, DecidableEq

/-- `principles.evaluate_solid`.  The single Python loop accumulates the six
counters file by file; they are modelled as per-file sums.  Note the
open-closed score: `ocp_score` starts at `1.0` and is reassigned only under
`total_classes > 0`, so the inner `if total_classes else 0` alternative is
dead code and a class-free run keeps `1.0`. -/
def evaluate_solid (files : List (FileMetrics × Option String)) : SolidScores :=
  let total_classes := totalClassesOf files
  let total_functions := totalFunctionsOf files
  let total_interfaces := totalInterfacesOf files
  let classes_with_inheritance := inheritTotalOf files
  let interface_methods := ifaceMethodTotalOf files
  let uses_abstract_in_imports := abstractImportTotalOf files
  let srp_score : ℚ :=
    if 0 < total_classes then
      max 0 (1 - max 0 ((total_functions : ℚ) / (total_classes : ℚ) - 5) / 10)
    else 1
  let ocp_score : ℚ :=
    if 0 < total_classes then
      min 1 ((classes_with_inheritance : ℚ) / (total_classes : ℚ))
    else 1
  let isp_score : ℚ :=
    if 0 < total_interfaces then
      max 0 (1 - max 0 ((interface_methods : ℚ) / (total_interfaces : ℚ) - 5) / 10)
    else 1
  let total_imports := importTotalOf files
  let dip_score : ℚ :=
    if total_imports = 0 then 0
    else (uses_abstract_in_imports : ℚ) / (total_imports : ℚ)
  { single_responsibility := srp_score, open_closed := ocp_score,
    interface_segregation := isp_score, dependency_inversion := dip_score,
    liskov_substitution := 1 / 2 }

-- ===== principles.evaluate_functional =====

/-- `len(assignment_pattern.findall(text))` with
`assignment_pattern = re.compile(r"^[^#\n]*=", re.MULTILINE)`: with the
`^` anchor a match starts only at a line start and cannot cross a newline,
so the count is the number of `\n`-separated lines containing an `=` before
any `#`. -/
def assignLineCount (text : String) : Nat :=
  (splitOnNL text).countP (fun l => (l.takeWhile (fun c => c != '#')).contains '=')

/-- `print_pattern.search(text)` with
`\b(print|console\.log|System\.out\.println)\b` (a search with an
alternation group succeeds iff one alternative's bounded search does). -/
def hasPrintCall (text : String) : Bool :=
  wbSearch "print" text || wbSearch "console.log" text ||
    wbSearch "System.out.println" text

/-- A word-boundary-wrapped literal token at the current position, returning
its extent (`ci` = case-insensitive). -/
def wbTokAt (ci : Bool) (kw : String) (prev : Option Char) (t : List Char) : Option Nat :=
  if wbHere ci kw.data prev t then some kw.length else none

/-- `len(lambda_pattern.findall(text))` with `\blambda\b|=>`: the second
alternative is a plain literal without boundaries. -/
def lambdaTokCount (text : String) : Nat :=
  countScan (fun prev t =>
    match wbTokAt false "lambda" prev t with
    | some n => some n
    | none => if litAt false "=>".data t then some 2 else none) text.data

/-- `len(hof_pattern.findall(text))` with `\b(map|filter|reduce|fold|forEach)\b`
(the alternatives are mutually exclusive at any one position). -/
def hofTokCount (text : String) : Nat :=
  countScan (fun prev t =>
    ["map", "filter", "reduce", "fold", "forEach"].findSome?
      (fun kw => wbTokAt false kw prev t)) text.data

/-- `len(immutable_keywords.findall(text))` with
`\b(const|final|immutable)\b` under `re.IGNORECASE`. -/
def immutableTokCount (text : String) : Nat :=
  countScan (fun prev t =>
    ["const", "final", "immutable"].findSome?
      (fun kw => wbTokAt true kw prev t)) text.data

/-- The accumulators of `evaluate_functional`'s file loop. -/
structure FunState where
  total_assignments : Nat
  pure_functions : Nat
  higher_order_count : Nat
  immutable_count : Nat
deriving Repr, DecidableEq

/-- One iteration of `evaluate_functional`'s file loop: an unreadable file is
skipped entirely (`except: continue`); otherwise the run-wide assignment
count is extended first, and the file's functions count as pure only if that
cumulative count is still zero and the text has no print/log call. -/
def funStep (st : FunState) (f : FileMetrics × Option String) : FunState :=
  match f.2 with
  | none => st
  | some text =>
    let ta := st.total_assignments + assignLineCount text
    { total_assignments := ta,
      pure_functions := st.pure_functions +
        (if 0 < f.1.num_functions then
          (if ta = 0 ∧ hasPrintCall text = false then f.1.num_functions else 0)
         else 0),
      higher_order_count := st.higher_order_count + lambdaTokCount text + hofTokCount text,
      immutable_count := st.immutable_count + immutableTokCount text }

/-- The three scores returned by `evaluate_functional` (exact rationals; the
source's `round(score, 3)` float formatting is not modelled). -/
structure FunctionalScores where
  purity : ℚ
  higher_order_usage : ℚ
  immutability : ℚ
deriving Repr, DecidableEq

/-- `principles.evaluate_functional`. -/
def evaluate_functional (files : List (FileMetrics × Option String)) : FunctionalScores :=
  let total_functions := totalFunctionsOf files
  let st := files.foldl funStep ⟨0, 0, 0, 0⟩
  { purity :=
      if total_functions = 0 then 0
      else (st.pure_functions : ℚ) / (total_functions : ℚ),
    higher_order_usage :=
      min 1 ((st.higher_order_count : ℚ) / ((max 1 total_functions : Nat) : ℚ)),
    immutability :=
      min 1 ((st.immutable_count : ℚ) / ((max 1 (st.total_assignments + 1) : Nat) : ℚ)) }

-- ===== Claim-side (specification-worded) definitions =====

/-- A run in which every file is readable, as the purity claim presupposes
(`none` files are skipped by the loop and settled separately). -/
def liftFS (f : FileMetrics × String) : FileMetrics × Option String := (f.1, some f.2)

def dummyFS : FileMetrics × String := (initMetrics "", "")

/-- Cumulative run-wide assignment-line count after the first `k` files have
been processed. -/
def cumulAssign (files : List (FileMetrics × String)) (k : Nat) : Nat :=
  ((files.take k).map (fun f => assignLineCount f.2)).sum

/-- The purity contribution of the file at run position `i`, exactly as the
claim words it: its functions count as pure iff, at the moment the file is
processed (i.e. with its own assignment lines already added), the cumulative
assignment-line count is zero and its text has no print/log call. -/
def pureContribution (files : List (FileMetrics × String)) (i : Nat) : Nat :=
  if cumulAssign files (i + 1) = 0 ∧ hasPrintCall (List.getD files i dummyFS).2 = false
  then (List.getD files i dummyFS).1.num_functions
  else 0

/-- Run-wide pure-function count as the claim describes it. -/
def pureCountSpec (files : List (FileMetrics × String)) : Nat :=
  ((List.range files.length).map (pureContribution files)).sum

/-- The walker's filtering policy in the words of the specification: with an
explicit extension list, plain string-suffix match on the file name; without
one, the classifier must assign a language other than `unknown`. -/
def specIncluded (exts : Option (List String)) (e : Entry) : Bool :=
  match exts with
  | some xs => xs.any (fun suffixExt => suffixExt.data.isSuffixOf e.name.data)
  | none => detect_language e.name != "unknown"

/-- Rank of a complexity category, for stating monotonicity of the
four-tier step function. -/
def catRank (s : String) : Nat :=
  if s = "Simple" then 0
  else if s = "Moderate" then 1
  else if s = "Complex" then 2
  else 3

-- ===== Concrete runs used by counterexamples and witnesses =====

/-- A scanner record for an empty, class-free `a.py`. -/
def emptyRun : List (FileMetrics × Option String) :=
  [(analyseLines "a.py" (readlines ""), some "")]

/-- A run with 2 classes whose text contains one `class A extends B` match. -/
def ocRun : List (FileMetrics × Option String) :=
  [({ initMetrics "a.js" with num_classes := 2 }, some "class A extends B\n")]

/-- One class, five functions. -/
def srpRun5 : List (FileMetrics × Option String) :=
  [({ initMetrics "a.py" with num_classes := 1, num_functions := 5 }, some "")]

/-- One class, fifteen functions. -/
def srpRun15 : List (FileMetrics × Option String) :=
  [({ initMetrics "a.py" with num_classes := 1, num_functions := 15 }, some "")]

/-- Text whose import lines are counted differently by the two passes of
`evaluate_solid`: `str.splitlines()` splits at the vertical tab, giving two
abstraction-mentioning import lines, while iterating the reopened file
splits on `\n` only, giving a single import line. -/
def dipText : String := "import interface\u000Bimport interface"

def dipRun : List (FileMetrics × Option String) :=
  [(analyseLines "a.py" (readlines dipText), some dipText)]

/-- Directory with one `.py` and one `.txt` file, both readable. -/
def pyTxtDir : List Entry :=
  [{ name := "a.py", content := some "x = 1\n" },
   { name := "b.txt", content := some "hello\n" }]

/-- A one-line file with no comment lines. -/
def oneLineRec : FileMetrics := analyseLines "a.py" (readlines "x\n")

/-- A two-line file, one of whose lines is a comment. -/
def twoLineRec : FileMetrics := analyseLines "a.py" (readlines "#a\nb\n")

-- ===== Helper lemmas =====

/-- The scanner fold adds each line's decision-keyword count to the running
complexity. -/
theorem scanFold_cx (lines : List String) : ∀ st : FileMetrics × Option Char × Nat,
    (lines.foldl scanStep st).2.2
      = st.2.2 + (lines.map (fun l => count_patterns decision_keywords l)).sum := by
  induction lines with
  | nil => intro st; simp
  | cons l rest ih =>
    intro st
    have hstep : (scanStep st l).2.2 = st.2.2 + count_patterns decision_keywords l := rfl
    simp only [List.foldl_cons, List.map_cons, List.sum_cons, ih, hstep]
    omega

/-- The scanner fold advances the line count by exactly one per line and each
declaration counter by at most one per line. -/
theorem scanFold_counts (lines : List String) : ∀ st : FileMetrics × Option Char × Nat,
    (lines.foldl scanStep st).1.line_count = st.1.line_count + lines.length
    ∧ (lines.foldl scanStep st).1.num_functions ≤ st.1.num_functions + lines.length
    ∧ (lines.foldl scanStep st).1.num_classes ≤ st.1.num_classes + lines.length
    ∧ (lines.foldl scanStep st).1.num_interfaces ≤ st.1.num_interfaces + lines.length := by
  induction lines with
  | nil => intro st; simp
  | cons l rest ih =>
    intro st
    obtain ⟨h1, h2, h3, h4⟩ := ih (scanStep st l)
    have e1 : (scanStep st l).1.line_count = st.1.line_count + 1 := rfl
    have e2 : (scanStep st l).1.num_functions
        = st.1.num_functions + (if funcLineMatch l then 1 else 0) := rfl
    have e3 : (scanStep st l).1.num_classes
        = st.1.num_classes + (if classLineMatch l then 1 else 0) := rfl
    have e4 : (scanStep st l).1.num_interfaces
        = st.1.num_interfaces + (if interfaceLineMatch l then 1 else 0) := rfl
    have b2 : (if funcLineMatch l then 1 else 0) ≤ 1 := by split <;> omega
    have b3 : (if classLineMatch l then 1 else 0) ≤ 1 := by split <;> omega
    have b4 : (if interfaceLineMatch l then 1 else 0) ≤ 1 := by split <;> omega
    rw [List.foldl_cons] at *
    refine ⟨?_, ?_, ?_, ?_⟩ <;> simp only [List.length_cons] <;> omega

-- ===== C3 =====

/-- C3: for every scanned line the cyclomatic-complexity increment is the
number of distinct decision keywords (from the fixed 14-element table) whose
whole-word search hits the line — at most one hit per pattern per line, and a
keyword inside a longer word (such as `if` inside `diff`) does not match —
with the running total starting at the baseline 1. -/
theorem C3_cyclomatic_increment :
    (∀ path lines, (analyseLines path lines).cyclomatic_complexity
        = 1 + (lines.map (fun l => count_patterns decision_keywords l)).sum)
    ∧ (∀ line, count_patterns decision_keywords line
        = (decision_keywords.filter (fun kw => wbSearch kw line)).length)
    ∧ decision_keywords.length = 14
    ∧ wbSearch "if" "diff" = false
    ∧ count_patterns decision_keywords "if a if b if c" = 1
    ∧ count_patterns decision_keywords "while x&&y or z" = 3 := by
  refine ⟨?_, ?_, by decide, by decide, by decide, by decide⟩
  · intro path lines
    exact scanFold_cx lines (initMetrics path, none, 1)
  · intro line
    simp [count_patterns, List.countP_eq_length_filter]

-- ===== C4 =====

/-- C4: the complexity category is a deterministic, monotone step function of
the final cyclomatic complexity, with 1 and 10 mapping to Simple, 11 and 20
to Moderate, 21 and 50 to Complex, 51 to the fourth value (spelled
"Very High" by the source), and no value outside these four. -/
theorem C4_complexity_category :
    (categoryOf 1 = "Simple" ∧ categoryOf 10 = "Simple"
      ∧ categoryOf 11 = "Moderate" ∧ categoryOf 20 = "Moderate"
      ∧ categoryOf 21 = "Complex" ∧ categoryOf 50 = "Complex"
      ∧ categoryOf 51 = "Very High")
    ∧ (∀ c d : Nat, c ≤ d → catRank (categoryOf c) ≤ catRank (categoryOf d))
    ∧ (∀ c : Nat, categoryOf c = "Simple" ∨ categoryOf c = "Moderate"
        ∨ categoryOf c = "Complex" ∨ categoryOf c = "Very High")
    ∧ (∀ path lines, (analyseLines path lines).complexity_category
        = categoryOf (analyseLines path lines).cyclomatic_complexity) := by
  refine ⟨by decide, ?_, ?_, fun path lines => rfl⟩
  · intro c d hcd
    unfold categoryOf
    split_ifs <;> first | decide | omega
  · intro c
    unfold categoryOf
    split_ifs <;> simp

/-- Witness for C4: the monotonicity part applied at the concrete pair
`7 ≤ 30` (Simple below Complex). -/
theorem C4_witness : (7 : Nat) ≤ 30 ∧ catRank (categoryOf 7) ≤ catRank (categoryOf 30) :=
  ⟨by decide, C4_complexity_category.2.1 7 30 (by decide)⟩

-- ===== C8 =====

/-- C8 counterexample: a one-line file with no comment and no long line has
`lineCount = 1` yet both ratios equal `0.0`, so the ratios are not `0.0`
"exactly when" the line count is zero. -/
theorem C8_counterexample :
    oneLineRec.line_count = 1
    ∧ comment_ratio oneLineRec = 0
    ∧ long_line_ratio oneLineRec = 0 := by
  have h1 : oneLineRec.line_count = 1 := by decide
  have h2 : oneLineRec.comment_count = 0 := by decide
  have h3 : oneLineRec.long_line_count = 0 := by decide
  refine ⟨h1, ?_, ?_⟩
  · simp [comment_ratio, h1, h2]
  · simp [long_line_ratio, h1, h3]

/-- C8 (amended): the ratios equal `0.0` when `lineCount = 0` (making the
zero-denominator case unreachable) and otherwise equal the exact quotients
(which may also be zero when the counts are zero). -/
theorem C8_ratio_definitions (fm : FileMetrics) :
    (fm.line_count = 0 → comment_ratio fm = 0 ∧ long_line_ratio fm = 0)
    ∧ (fm.line_count ≠ 0 →
        comment_ratio fm = (fm.comment_count : ℚ) / (fm.line_count : ℚ)
        ∧ long_line_ratio fm = (fm.long_line_count : ℚ) / (fm.line_count : ℚ)) := by
  constructor
  · intro h
    simp [comment_ratio, long_line_ratio, h]
  · intro h
    simp [comment_ratio, long_line_ratio, h]

/-- Witness for C8: both branches of the amended statement applied to
concrete scanner outputs (a two-line file with one comment line, and an
empty file). -/
theorem C8_witness :
    (twoLineRec.line_count ≠ 0 ∧ comment_ratio twoLineRec = 1 / 2)
    ∧ ((analyseLines "a.py" (readlines "")).line_count = 0
        ∧ comment_ratio (analyseLines "a.py" (readlines "")) = 0) := by
  constructor
  · refine ⟨by decide, ?_⟩
    have h := (C8_ratio_definitions twoLineRec).2 (by decide)
    rw [h.1, show twoLineRec.comment_count = 1 from by decide,
      show twoLineRec.line_count = 2 from by decide]
    norm_num
  · refine ⟨by decide, ?_⟩
    have h := (C8_ratio_definitions (analyseLines "a.py" (readlines ""))).1 (by decide)
    exact h.1

-- ===== C9 =====

/-- C9: the scanner yields a record exactly for openable files (decoding is
permissive and cannot fail, so a successfully opened text always produces a
record), and the walker silently drops unreadable files from its results. -/
theorem C9_unreadable_files_skipped :
    (∀ path text, analyse_file path (some text) = some (analyseLines path (readlines text)))
    ∧ (∀ path, analyse_file path none = none)
    ∧ (∀ nm rest exts,
        analyse_directory ({ name := nm, content := none } :: rest) exts
          = analyse_directory rest exts) := by
  refine ⟨fun path text => rfl, fun path => rfl, ?_⟩
  intro nm rest exts
  have h : analyse_directory ({ name := nm, content := none } :: rest) exts
      = (if specIncluded exts { name := nm, content := none }
         then analyse_directory rest exts else analyse_directory rest exts) := rfl
  rw [h, ite_self]

-- ===== C10 =====

/-- C10: each of the three declaration counters is incremented at most once
per scanned line, so every scanner-produced record satisfies
`numFunctions ≤ lineCount`, `numClasses ≤ lineCount` and
`numInterfaces ≤ lineCount`. -/
theorem C10_declaration_counts_bounded (path : String) (lines : List String) :
    (analyseLines path lines).num_functions ≤ (analyseLines path lines).line_count
    ∧ (analyseLines path lines).num_classes ≤ (analyseLines path lines).line_count
    ∧ (analyseLines path lines).num_interfaces ≤ (analyseLines path lines).line_count := by
  obtain ⟨h1, h2, h3, h4⟩ := scanFold_counts lines (initMetrics path, none, 1)
  have e0 : (initMetrics path).line_count = 0 := rfl
  have ef : (initMetrics path).num_functions = 0 := rfl
  have ec : (initMetrics path).num_classes = 0 := rfl
  have ei : (initMetrics path).num_interfaces = 0 := rfl
  rw [e0] at h1
  rw [ef] at h2
  rw [ec] at h3
  rw [ei] at h4
  have pl : (analyseLines path lines).line_count
      = (lines.foldl scanStep (initMetrics path, none, 1)).1.line_count := rfl
  have pf : (analyseLines path lines).num_functions
      = (lines.foldl scanStep (initMetrics path, none, 1)).1.num_functions := rfl
  have pc : (analyseLines path lines).num_classes
      = (lines.foldl scanStep (initMetrics path, none, 1)).1.num_classes := rfl
  have pi : (analyseLines path lines).num_interfaces
      = (lines.foldl scanStep (initMetrics path, none, 1)).1.num_interfaces := rfl
  rw [pl, pf, pc, pi]
  exact ⟨by omega, by omega, by omega⟩

-- ===== C1 =====

/-- C1 counterexample: a run whose single record has no classes (here the
scan of an empty `a.py`) keeps the open-closed score at its initial `1.0`
(the `if total_classes else 0` alternative is dead code), so the score is not
`0` when the total class count is `0`. -/
theorem C1_counterexample :
    totalClassesOf emptyRun = 0 ∧ (evaluate_solid emptyRun).open_closed ≠ 0 := by
  refine ⟨by decide, ?_⟩
  have h : (evaluate_solid emptyRun).open_closed
      = (if 0 < totalClassesOf emptyRun
         then min 1 ((inheritTotalOf emptyRun : ℚ) / (totalClassesOf emptyRun : ℚ))
         else 1) := rfl
  rw [h, if_neg (by decide)]
  norm_num

/-- C1 (amended): when the total class count is positive, the open-closed
score is the ratio of textually detected inheritance matches to the total
class count, capped at `1.0`; when the total class count is `0` the score is
the neutral `1.0`. -/
theorem C1_open_closed (files : List (FileMetrics × Option String)) :
    (0 < totalClassesOf files →
      (evaluate_solid files).open_closed
        = min 1 ((inheritTotalOf files : ℚ) / (totalClassesOf files : ℚ)))
    ∧ (totalClassesOf files = 0 → (evaluate_solid files).open_closed = 1) := by
  have e : (evaluate_solid files).open_closed
      = (if 0 < totalClassesOf files
         then min 1 ((inheritTotalOf files : ℚ) / (totalClassesOf files : ℚ))
         else 1) := rfl
  constructor
  · intro h
    rw [e, if_pos h]
  · intro h
    rw [e, if_neg (by omega)]

/-- Witness for C1: a run with 2 classes and one `class A extends B` match
scores `0.5`, and a class-free run scores the neutral `1.0`. -/
theorem C1_witness :
    (0 < totalClassesOf ocRun ∧ (evaluate_solid ocRun).open_closed = 1 / 2)
    ∧ (totalClassesOf emptyRun = 0 ∧ (evaluate_solid emptyRun).open_closed = 1) := by
  constructor
  · refine ⟨by decide, ?_⟩
    rw [(C1_open_closed ocRun).1 (by decide),
      show inheritTotalOf ocRun = 1 from by decide,
      show totalClassesOf ocRun = 2 from by decide,
      show ((1 : Nat) : ℚ) / ((2 : Nat) : ℚ) = 1 / 2 from by norm_num,
      min_eq_right (by norm_num)]
  · exact ⟨by decide, (C1_open_closed emptyRun).2 (by decide)⟩

-- ===== C5 =====

/-- C5: with at least one class the single-responsibility score is
`max(0, 1 - max(0, avg - 5)/10)` where `avg` is total functions over total
classes across the run; with no classes it is the neutral `1.0`. -/
theorem C5_single_responsibility (files : List (FileMetrics × Option String)) :
    (0 < totalClassesOf files →
      (evaluate_solid files).single_responsibility
        = max 0 (1 - max 0 ((totalFunctionsOf files : ℚ) / (totalClassesOf files : ℚ) - 5) / 10))
    ∧ (totalClassesOf files = 0 →
        (evaluate_solid files).single_responsibility = 1) := by
  have e : (evaluate_solid files).single_responsibility
      = (if 0 < totalClassesOf files
         then max 0 (1 - max 0 ((totalFunctionsOf files : ℚ) / (totalClassesOf files : ℚ) - 5) / 10)
         else 1) := rfl
  constructor
  · intro h
    rw [e, if_pos h]
  · intro h
    rw [e, if_neg (by omega)]

/-- Witness for C5: one class with five functions scores `1.0`; one class
with fifteen functions scores `0.0`. -/
theorem C5_witness :
    (0 < totalClassesOf srpRun5 ∧ (evaluate_solid srpRun5).single_responsibility = 1)
    ∧ (0 < totalClassesOf srpRun15 ∧ (evaluate_solid srpRun15).single_responsibility = 0) := by
  constructor
  · refine ⟨by decide, ?_⟩
    rw [(C5_single_responsibility srpRun5).1 (by decide),
      show totalFunctionsOf srpRun5 = 5 from by decide,
      show totalClassesOf srpRun5 = 1 from by decide]
    norm_num [max_def]
  · refine ⟨by decide, ?_⟩
    rw [(C5_single_responsibility srpRun15).1 (by decide),
      show totalFunctionsOf srpRun15 = 15 from by decide,
      show totalClassesOf srpRun15 = 1 from by decide]
    norm_num [max_def]

-- ===== C6 =====

/-- C6 (code bug): on a readable file whose text is
`"import interface\x0bimport interface"` the first `evaluate_solid` pass
(over `text.splitlines()`, which splits at the vertical tab) counts two
abstraction-mentioning import lines while the second pass (iterating the
reopened file, which splits on `\n` only) counts one import line, so
`dependency_inversion = 2.0`, outside the documented range `[0, 1]`. -/
theorem C6_dip_out_of_range :
    (evaluate_solid dipRun).dependency_inversion = 2
    ∧ 1 < (evaluate_solid dipRun).dependency_inversion := by
  have e : (evaluate_solid dipRun).dependency_inversion
      = (if importTotalOf dipRun = 0 then 0
         else (abstractImportTotalOf dipRun : ℚ) / (importTotalOf dipRun : ℚ)) := rfl
  have h1 : abstractImportTotalOf dipRun = 2 := by decide
  have h2 : importTotalOf dipRun = 1 := by decide
  have e2 : (evaluate_solid dipRun).dependency_inversion = 2 := by
    rw [e, if_neg (by simp [h2]), h1, h2]
    norm_num
  refine ⟨e2, ?_⟩
  rw [e2]
  norm_num

-- ===== C7 =====

/-- C7: the walker emits exactly the successful scans of the files passing
the filtering policy — string-suffix match against an explicit extension list
(even for extensions the classifier does not know), else a known classifier
language; a directory with one `.py` and one `.txt` file yields exactly one
record under `extensions = [".py"]`. -/
theorem C7_extension_filter :
    (∀ ents exts, analyse_directory ents exts
        = (ents.filter (specIncluded exts)).filterMap
            (fun e => analyse_file e.name e.content))
    ∧ (analyse_directory pyTxtDir (some [".py"])).map (fun m => m.path) = ["a.py"]
    ∧ (analyse_directory pyTxtDir (some [".txt"])).map (fun m => m.path) = ["b.txt"]
    ∧ (analyse_directory pyTxtDir none).map (fun m => m.path) = ["a.py"] := by
  refine ⟨?_, by decide, by decide, by decide⟩
  intro ents exts
  induction ents with
  | nil => rfl
  | cons e rest ih =>
    have h : analyse_directory (e :: rest) exts
        = (if specIncluded exts e then
            match analyse_file e.name e.content with
            | some m => m :: analyse_directory rest exts
            | none => analyse_directory rest exts
          else analyse_directory rest exts) := rfl
    rw [h]
    cases hk : specIncluded exts e with
    | false => simp [List.filter_cons, hk, ih]
    | true =>
      cases hf : analyse_file e.name e.content with
      | none => simp [List.filter_cons, hk, hf, List.filterMap_cons, ih]
      | some m => simp [List.filter_cons, hk, hf, List.filterMap_cons, ih]

-- ===== C2 =====

/-- Taking one more element extends the cumulative assignment count by the
head file's assignment-line count. -/
theorem cumulAssign_cons_one (f : FileMetrics × String) (rest : List (FileMetrics × String)) :
    cumulAssign (f :: rest) 1 = assignLineCount f.2 := by
  simp [cumulAssign]

theorem cumulAssign_cons_succ (f : FileMetrics × String) (rest : List (FileMetrics × String))
    (i : Nat) :
    cumulAssign (f :: rest) (i + 1 + 1) = assignLineCount f.2 + cumulAssign rest (i + 1) := by
  simp [cumulAssign, List.take_succ_cons]

/-- The functional-evaluator fold computes exactly the claim's per-position
pure-function contributions, relative to an arbitrary starting state. -/
theorem funFold_pure (files : List (FileMetrics × String)) : ∀ st : FunState,
    ((files.map liftFS).foldl funStep st).pure_functions
      = st.pure_functions +
        ((List.range files.length).map (fun i =>
          if st.total_assignments + cumulAssign files (i + 1) = 0
             ∧ hasPrintCall (List.getD files i dummyFS).2 = false
          then (List.getD files i dummyFS).1.num_functions else 0)).sum := by
  induction files with
  | nil => intro st; simp
  | cons f rest ih =>
    intro st
    have hstep : funStep st (liftFS f) =
        { total_assignments := st.total_assignments + assignLineCount f.2,
          pure_functions := st.pure_functions +
            (if 0 < f.1.num_functions then
              (if st.total_assignments + assignLineCount f.2 = 0
                  ∧ hasPrintCall f.2 = false
               then f.1.num_functions else 0)
             else 0),
          higher_order_count := st.higher_order_count + lambdaTokCount f.2 + hofTokCount f.2,
          immutable_count := st.immutable_count + immutableTokCount f.2 } := rfl
    rw [List.map_cons, List.foldl_cons, hstep, ih]
    dsimp only
    rw [List.length_cons, List.range_succ_eq_map, List.map_cons, List.sum_cons, List.map_map]
    have hhead :
        (if 0 < f.1.num_functions then
          (if st.total_assignments + assignLineCount f.2 = 0
              ∧ hasPrintCall f.2 = false
           then f.1.num_functions else 0)
         else 0)
        = (if st.total_assignments + cumulAssign (f :: rest) (0 + 1) = 0
              ∧ hasPrintCall (List.getD (f :: rest) 0 dummyFS).2 = false
           then (List.getD (f :: rest) 0 dummyFS).1.num_functions else 0) := by
      rw [cumulAssign_cons_one, List.getD_cons_zero]
      rcases Nat.eq_zero_or_pos f.1.num_functions with h0 | h0
      · simp [h0]
      · simp [h0]
    have hfun :
        ((fun i =>
          if st.total_assignments + cumulAssign (f :: rest) (i + 1) = 0
             ∧ hasPrintCall (List.getD (f :: rest) i dummyFS).2 = false
          then (List.getD (f :: rest) i dummyFS).1.num_functions else 0) ∘ Nat.succ)
        = (fun i =>
          if st.total_assignments + assignLineCount f.2 + cumulAssign rest (i + 1) = 0
             ∧ hasPrintCall (List.getD rest i dummyFS).2 = false
          then (List.getD rest i dummyFS).1.num_functions else 0) := by
      funext i
      simp only [Function.comp_apply, Nat.succ_eq_add_one, cumulAssign_cons_succ,
        List.getD_cons_succ, Nat.add_assoc]
    rw [hfun, hhead]
    omega

/-- C2: in a run where every file is readable, a file's functions count as
pure exactly when, at the moment the file is processed in run order (its own
assignment lines included), the cumulative run-wide assignment-line count is
zero and its text has no print/log call (`print`, `console.log`,
`System.out.println`); the purity score is the resulting pure-function count
divided by the run's total function count, and `0.0` with no functions. -/
theorem C2_purity (files : List (FileMetrics × String)) :
    (evaluate_functional (files.map liftFS)).purity
      = if totalFunctionsOf (files.map liftFS) = 0 then 0
        else (pureCountSpec files : ℚ) / (totalFunctionsOf (files.map liftFS) : ℚ) := by
  have e : (evaluate_functional (files.map liftFS)).purity
      = (if totalFunctionsOf (files.map liftFS) = 0 then 0
         else ((((files.map liftFS).foldl funStep ⟨0, 0, 0, 0⟩).pure_functions : ℚ)
            / (totalFunctionsOf (files.map liftFS) : ℚ))) := rfl
  have h := funFold_pure files ⟨0, 0, 0, 0⟩
  dsimp only at h
  simp only [Nat.zero_add] at h
  rw [e, h]
  rfl
